import Mathlib

/-!
Verification of the group/membership/settlement lifecycle engine and the
real-time notification fan-out of the mt5_EA backend.

The Lean definitions below are a shallow embedding of the Python source:

* `updateFirst` models MongoDB `update_one` / `utils.mongo.update_document`
  (apply a field update to the first matching document of a collection).
* `MT5.DB` models the document store with its `users`, `groups`, `members`,
  `trading_accounts` and `settlements` collections; a document is a record of
  the fields the lifecycle code reads or writes.  Timestamps (`datetime.now()`
  / `datetime.utcnow()`) are modelled by an explicit clock argument `t : Nat`.
  Money and percentages are modelled by `ℚ`.
* Each modelled operation is translated from one Python function; the source
  file and function are named in its doc comment.  An HTTP endpoint returns
  `DB × Outcome` (an `HTTPException` raised after earlier collection writes
  leaves those writes in place, as in MongoDB, which has no transaction here);
  a service function returning a `{"status": bool}` dict returns `DB × Bool`.
* `RT` models `services/realtime_service.py`: the connection registry is an
  insertion-ordered association list (a Python `dict`), a channel set is a
  `Finset ℕ` of queue identities, and for the publishing claims a channel is
  its queue contents `List String` (an `asyncio.Queue()` created with the
  default, i.e. unlimited, capacity).
-/

/-- Apply `f` to the first element of the list satisfying `p` (MongoDB
`update_one`: at most one document is modified). -/
def updateFirst (p : α → Bool) (f : α → α) : List α → List α
  | [] => []
  | x :: xs => if p x then f x :: xs else x :: updateFirst p f xs

namespace MT5

/-- Document of the `users` collection (fields read or written by the
group-join endpoints of `api/groups.py`).  `group_id = none` covers both an
absent field (after `$unset`) and a null one: every read in scope is either
`user.get("group_id")` or the filter `{"$exists": True, "$ne": None}`, and
neither distinguishes the two. -/
structure UserDoc where
  uid : String
  ib_status : String
  group_id : Option String
  group_join_date : Option Nat
  referral_code_used : Option String
  updated_at : Nat
deriving DecidableEq

/-- Document of the `groups` collection.  `profit_sharing_percent` is the
field read by `services/settlement_service.py` via
`group_service.get_group_by_id`. -/
structure GroupDoc where
  gid : String
  referral_code : Option String
  api_key : String
  trading_status : String
  profit_sharing_percent : ℚ
  total_members : Nat
  active_members : Nat
  updated_at : Nat
deriving DecidableEq

/-- Document of the `members` collection (fields used by the join, approve
and count operations). -/
structure MemberDoc where
  mid : String
  user_id : String
  group_id : String
  account_id : Option String
  status : String
  opening_balance : ℚ
  joined_at : Option Nat
  approved_at : Option Nat
  approved_by : Option String
  left_at : Option Nat
deriving DecidableEq

/-- Document of the `trading_accounts` collection (fields used by the join,
leave and member-approval operations). -/
structure TAccountDoc where
  aid : String
  user_id : String
  group_id : Option String
  status : String
  updated_at : Nat
deriving DecidableEq

/-- Document of the `settlements` collection, as created by
`SettlementService.submit_settlement`. -/
structure SettlementDoc where
  sid : String
  group_id : String
  period_from : Int
  period_to : Int
  total_profit : ℚ
  profit_share_percent : ℚ
  amount_due : ℚ
  amount_paid : ℚ
  payment_method : String
  payment_reference : String
  status : String
  submitted_by : String
  approved_by : Option String
  approved_at : Option Nat
  remarks : Option String
  auto_paused : Bool
  submitted_at : Nat
  updated_at : Nat
deriving DecidableEq

/-- The document store. -/
structure DB where
  users : List UserDoc
  groups : List GroupDoc
  members : List MemberDoc
  trading_accounts : List TAccountDoc
  settlements : List SettlementDoc
deriving DecidableEq

/-- Result of an HTTP endpoint: success, or a raised `HTTPException`. -/
inductive Outcome where
  | success
  | httpError (code : Nat) (detail : String)
deriving DecidableEq

/-- Group lookup filter of `join_group_by_referral`:
`{"$or": [{"referral_code": code}, {"api_key": code}]}`. -/
def matchesRef (code : String) (g : GroupDoc) : Bool :=
  g.referral_code == some code || g.api_key == code

/-- The `$unset`/`$set` combination the graceful leave applies to the user
document: clear the group fields and stamp `updated_at`. -/
def leaveUserUpdate (t : Nat) (u : UserDoc) : UserDoc :=
  { u with group_id := none, group_join_date := none,
           referral_code_used := none, updated_at := t }

/-- The graceful-leave block of `join_group_by_referral` /
`join_group_by_api_key` (`api/groups.py`): mark the member records of the
previous group `left`, deactivate its trading accounts, and unset the group
fields on the user document. -/
def gracefulLeave (t : Nat) (uid prevg : String) (db : DB) : DB :=
  { db with
    members := db.members.map (fun m =>
      if m.user_id == uid && m.group_id == prevg && m.status != "left" then
        { m with status := "left", left_at := some t } else m),
    trading_accounts := db.trading_accounts.map (fun a =>
      if a.user_id == uid && a.group_id == some prevg then
        { a with status := "inactive", updated_at := t } else a),
    users := updateFirst (fun u => u.uid == uid) (leaveUserUpdate t) db.users }

/-- The `$set` dictionary the join endpoints write to the user document:
`group_id`, `group_join_date`, `referral_code_used`, `updated_at`. -/
def joinUserUpdate (t : Nat) (gid : String) (rc : Option String) (u : UserDoc) :
    UserDoc :=
  { u with group_id := some gid, group_join_date := some t,
           referral_code_used := rc, updated_at := t }

/-- Final user update of the join endpoints, see `joinUserUpdate`. -/
def setUserGroup (t : Nat) (uid gid : String) (rc : Option String) (db : DB) : DB :=
  { db with users := (updateFirst (fun u => u.uid == uid)
      (joinUserUpdate t gid rc) db.users) }

/-- `join_group_by_referral` (`api/groups.py`).  Note the source order: the
group is resolved first; the graceful leave of a previous group runs next;
the IB-approval check runs only after the graceful leave.  The realtime
notifications do not touch the store and are modelled in `RT`. -/
def joinGroupByReferral (t : Nat) (uid code : String) (db : DB) : DB × Outcome :=
  match db.groups.find? (matchesRef code) with
  | none => (db, .httpError 404 "Invalid referral code or API key")
  | some g =>
    let db1 :=
      match db.users.find? (fun u => u.uid == uid && u.group_id.isSome) with
      | some prev =>
        match prev.group_id with
        | some pg => gracefulLeave t uid pg db
        | none => db
      | none => db
    match db1.users.find? (fun u => u.uid == uid) with
    | none => (db1, .httpError 404 "User not found")
    | some u =>
      if u.ib_status == "approved" then
        (setUserGroup t uid g.gid (some code) db1, .success)
      else
        (db1, .httpError 400 "IB change must be approved before joining a group")

/-- `join_group_by_api_key` (`api/groups.py`): same flow with an
api-key-only lookup and `referral_code_used` set to null. -/
def joinGroupByApiKey (t : Nat) (uid key : String) (db : DB) : DB × Outcome :=
  match db.groups.find? (fun g => g.api_key == key) with
  | none => (db, .httpError 404 "Invalid API key")
  | some g =>
    let db1 :=
      match db.users.find? (fun u => u.uid == uid && u.group_id.isSome) with
      | some prev =>
        match prev.group_id with
        | some pg => gracefulLeave t uid pg db
        | none => db
      | none => db
    match db1.users.find? (fun u => u.uid == uid) with
    | none => (db1, .httpError 404 "User not found")
    | some u =>
      if u.ib_status == "approved" then
        (setUserGroup t uid g.gid none db1, .success)
      else
        (db1, .httpError 400 "IB change must be approved before joining a group")

/-- The pending trading account `join_group` inserts. -/
def directAccountDoc (t : Nat) (uid gid aid : String) : TAccountDoc :=
  { aid := aid, user_id := uid, group_id := some gid, status := "pending",
    updated_at := t }

/-- The pending member record `join_group` inserts. -/
def directMemberDoc (t : Nat) (uid gid aid mid : String) (opening : ℚ) :
    MemberDoc :=
  { mid := mid, user_id := uid, group_id := gid, account_id := some aid,
    status := "pending", opening_balance := opening, joined_at := some t,
    approved_at := none, approved_by := none, left_at := none }

/-- `join_group` (`api/groups.py`, the admin-only direct join): rejects when
any member record for this `(user, group)` pair exists, otherwise inserts a
`pending` trading account and a `pending` member record.  `aid` and `mid`
stand for the ObjectIds MongoDB generates for the two inserts. -/
def joinGroupDirect (t : Nat) (uid gid aid mid : String) (opening : ℚ) (db : DB) :
    DB × Outcome :=
  match db.groups.find? (fun g => g.gid == gid) with
  | none => (db, .httpError 404 "Group not found")
  | some _ =>
    if (db.members.find? (fun m => m.user_id == uid && m.group_id == gid)).isSome then
      (db, .httpError 400 "Already a member of this group")
    else
      ({ db with
          trading_accounts := db.trading_accounts ++ [directAccountDoc t uid gid aid],
          members := db.members ++ [directMemberDoc t uid gid aid mid opening] },
       .success)

/-- `approve_member` (`api/groups.py`): `update_one` with
`$set {status: active, approved_at: now, approved_by: admin}`; a
`modified_count` of 0 (no match, or a match whose stored values already equal
the written ones) raises 404 "Member not found"; otherwise the member is
re-fetched and its trading account is set to `approved`.
`applyMemberApproval` is the `$set` dictionary of that `update_one`. -/
def applyMemberApproval (t : Nat) (adminId : String) (m : MemberDoc) : MemberDoc :=
  { m with status := "active", approved_at := some t, approved_by := some adminId }

/-- `approve_member` (`api/groups.py`), see `applyMemberApproval`. -/
def approveMember (t : Nat) (adminId mid : String) (db : DB) : DB × Outcome :=
  let old := db.members.find? (fun m => m.mid == mid)
  let members' := updateFirst (fun m => m.mid == mid)
    (applyMemberApproval t adminId) db.members
  let modified :=
    match old with
    | none => false
    | some m => !(m.status == "active" && m.approved_at == some t
                  && m.approved_by == some adminId)
  let db' := { db with members := members' }
  if modified then
    match members'.find? (fun m => m.mid == mid) with
    | some m2 =>
      match m2.account_id with
      | some aid =>
        ({ db' with trading_accounts := (updateFirst (fun a => a.aid == aid)
            (fun a => { a with status := "approved", updated_at := t })
            db'.trading_accounts) }, .success)
      | none => (db', .success)
    | none => (db', .success)
  else
    (db', .httpError 404 "Member not found")

/-- Input of `MemberService.add_member_to_group`. -/
structure NewMemberIn where
  user_id : String
  group_id : String
  broker : String
  server : String
  account_no : String
  password : String
  opening_balance : ℚ
  allocation_model : String
deriving DecidableEq

/-- `MemberService.verify_mt5_account`: all fields non-empty, numeric
account number, password of length at least 4. -/
def validAccount (inp : NewMemberIn) : Bool :=
  inp.broker != "" && inp.server != "" && inp.account_no != "" && inp.password != ""
  && inp.account_no.toList.all Char.isDigit && inp.password.length ≥ 4

/-- `MemberService.update_group_member_count`: recompute `total_members`
(non-deleted) and `active_members` (status `active`) and persist them on the
group (`update_document` also stamps `updated_at`). -/
def updateGroupMemberCount (t : Nat) (gid : String) (db : DB) : DB :=
  let total := db.members.countP (fun m => m.group_id == gid && m.status != "deleted")
  let active := db.members.countP (fun m => m.group_id == gid && m.status == "active")
  { db with groups := (updateFirst (fun g => g.gid == gid)
      (fun g => { g with total_members := total, active_members := active,
                         updated_at := t }) db.groups) }

/-- The member record `add_member_to_group` inserts: status `active`. -/
def serviceMemberDoc (t : Nat) (newMid : String) (inp : NewMemberIn) : MemberDoc :=
  { mid := newMid, user_id := inp.user_id, group_id := inp.group_id,
    account_id := none, status := "active",
    opening_balance := inp.opening_balance, joined_at := some t,
    approved_at := none, approved_by := none, left_at := none }

/-- `MemberService.add_member_to_group`: requires an existing user and group
and no non-`deleted` member record for the pair, validates the MT5 account,
inserts a member record with status `active`, then recomputes the group
counters.  The Trade-Copier mapping bookkeeping (an external collaborator's
identifiers written into a `trade_copier_mapping` subdocument) is not read by
any modelled operation and is omitted. -/
def addMemberToGroup (t : Nat) (newMid : String) (inp : NewMemberIn) (db : DB) :
    DB × Bool :=
  match db.users.find? (fun u => u.uid == inp.user_id) with
  | none => (db, false)
  | some _ =>
  match db.groups.find? (fun g => g.gid == inp.group_id) with
  | none => (db, false)
  | some _ =>
  if (db.members.find? (fun m => m.user_id == inp.user_id
        && m.group_id == inp.group_id && m.status != "deleted")).isSome then
    (db, false)
  else if !validAccount inp then
    (db, false)
  else
    (updateGroupMemberCount t inp.group_id
      { db with members := db.members ++ [serviceMemberDoc t newMid inp] }, true)

/-- Input of `SettlementService.submit_settlement`. -/
structure SettleIn where
  group_id : String
  period_from : Int
  period_to : Int
  amount_paid : ℚ
  payment_method : String
  payment_reference : String
deriving DecidableEq

/-- `SettlementService.submit_settlement` composed with
`calculate_profit_sharing`: the gross profit reported by the external
Trade-Copier collaborator for the period is the parameter `grossProfit`; the
group's current `profit_sharing_percent` is snapshotted into the record and
`amount_due = total_profit * (percent / 100)` is computed at submission. -/
def submitSettlement (t : Nat) (sid : String) (inp : SettleIn) (grossProfit : ℚ)
    (submitter : String) (db : DB) : DB × Bool :=
  match db.groups.find? (fun g => g.gid == inp.group_id) with
  | none => (db, false)
  | some g =>
    let sdoc : SettlementDoc :=
      { sid := sid, group_id := inp.group_id, period_from := inp.period_from,
        period_to := inp.period_to, total_profit := grossProfit,
        profit_share_percent := g.profit_sharing_percent,
        amount_due := grossProfit * (g.profit_sharing_percent / 100),
        amount_paid := inp.amount_paid, payment_method := inp.payment_method,
        payment_reference := inp.payment_reference, status := "pending",
        submitted_by := submitter, approved_by := none, approved_at := none,
        remarks := none, auto_paused := false, submitted_at := t,
        updated_at := t }
    ({ db with settlements := db.settlements ++ [sdoc] }, true)

/-- `GroupService.toggle_trading_status`: fails when the group is absent,
otherwise sets `trading_status` (and `updated_at`, via `update_document`). -/
def toggleTradingStatus (t : Nat) (gid newStatus : String) (db : DB) : DB × Bool :=
  if (db.groups.find? (fun g => g.gid == gid)).isSome then
    ({ db with groups := (updateFirst (fun g => g.gid == gid)
        (fun g => { g with trading_status := newStatus, updated_at := t })
        db.groups) }, true)
  else (db, false)

/-- `GroupService.update_group`: fails when the group is absent, otherwise
applies the `$set` update dictionary (modelled by `f`) to the group document
and stamps `updated_at`.  Only the `groups` collection is touched. -/
def updateGroup (t : Nat) (gid : String) (f : GroupDoc → GroupDoc) (db : DB) :
    DB × Bool :=
  if (db.groups.find? (fun g => g.gid == gid)).isSome then
    ({ db with groups := (updateFirst (fun g => g.gid == gid)
        (fun g => { f g with updated_at := t }) db.groups) }, true)
  else (db, false)

/-- `SettlementService.approve_settlement`: unconditionally `$set`s status,
approver, approval time and remarks on the settlement (`update_document`
reports success even for zero matches); when the requested status is
`approved` it then runs `resume_group_if_paused`, which re-fetches the
settlement and resumes the owning group to `active` without consulting any
auto-pause flag; any other requested status makes the call report failure.
`applySettlementApproval` is the `$set` dictionary of its `update_document`
call (which also stamps `updated_at`). -/
def applySettlementApproval (t : Nat) (approvalStatus : String)
    (remarks : Option String) (adminId : String) (s : SettlementDoc) :
    SettlementDoc :=
  { s with status := approvalStatus, approved_by := some adminId,
           approved_at := some t, remarks := remarks, updated_at := t }

/-- `SettlementService.approve_settlement`, see `applySettlementApproval`. -/
def approveSettlement (t : Nat) (sid approvalStatus : String)
    (remarks : Option String) (adminId : String) (db : DB) : DB × Bool :=
  let db1 := { db with settlements := (updateFirst (fun s => s.sid == sid)
    (applySettlementApproval t approvalStatus remarks adminId) db.settlements) }
  if approvalStatus == "approved" then
    let db2 :=
      match db1.settlements.find? (fun s => s.sid == sid) with
      | some s => (toggleTradingStatus t s.group_id "active" db1).1
      | none => db1
    (db2, true)
  else (db1, false)

/-- Number of member records of a user whose status is neither `left` nor
`rejected` (the one-group-per-user measure of the claim). -/
def activeMembershipCount (db : DB) (uid : String) : Nat :=
  db.members.countP (fun m => m.user_id == uid
    && m.status != "left" && m.status != "rejected")

/-- Number of member records of a `(user, group)` pair whose status is none
of `left`, `rejected`, `deleted` (the per-pair measure the code's duplicate
checks actually protect). -/
def pairLiveCount (db : DB) (uid gid : String) : Nat :=
  db.members.countP (fun m => m.user_id == uid && m.group_id == gid
    && m.status != "left" && m.status != "rejected" && m.status != "deleted")

end MT5

namespace RT

/-- Connection registry of `RealtimeService`: three insertion-ordered maps
(Python dicts) from user id to the set of that subscriber's queues, a queue
represented by its identity. -/
structure Registry where
  admin : List (String × Finset ℕ)
  master : List (String × Finset ℕ)
  user : List (String × Finset ℕ)
deriving DecidableEq

/-- Python `dict` write `d.setdefault(k, set()).add(q)`: mutate the set of
the first (unique) occurrence of the key in place, or append a new entry. -/
def dictAdd (k : String) (q : ℕ) : List (String × Finset ℕ) → List (String × Finset ℕ)
  | [] => [(k, {q})]
  | (a, s) :: rest =>
    if a == k then (a, insert q s) :: rest else (a, s) :: dictAdd k q rest

/-- Python `d[k].discard(q)` followed by `if not d[k]: del d[k]`. -/
def dictRemove (k : String) (q : ℕ) : List (String × Finset ℕ) → List (String × Finset ℕ)
  | [] => []
  | (a, s) :: rest =>
    if a == k then
      (if s.erase q = ∅ then rest else (a, s.erase q) :: rest)
    else (a, s) :: dictRemove k q rest

/-- Key membership test, Python `k in d`. -/
def dictHas (d : List (String × Finset ℕ)) (k : String) : Bool :=
  (d.lookup k).isSome

/-- The channel set stored for a key (empty when the key is absent). -/
def dictSet (d : List (String × Finset ℕ)) (k : String) : Finset ℕ :=
  (d.lookup k).getD ∅

/-- `RealtimeService.add_connection`: route on the role string, then insert
the queue into that subscriber's channel set. -/
def addConnection (uid role : String) (q : ℕ) (r : Registry) : Registry :=
  if role == "admin" then { r with admin := dictAdd uid q r.admin }
  else if role == "master" then { r with master := dictAdd uid q r.master }
  else { r with user := dictAdd uid q r.user }

/-- `RealtimeService.remove_connection`: the same routing, but each of the
first two branches additionally requires the key to be present, and the last
branch fires whenever the key is present in the user map. -/
def removeConnection (uid role : String) (q : ℕ) (r : Registry) : Registry :=
  if role == "admin" && dictHas r.admin uid then
    { r with admin := dictRemove uid q r.admin }
  else if role == "master" && dictHas r.master uid then
    { r with master := dictRemove uid q r.master }
  else if dictHas r.user uid then
    { r with user := dictRemove uid q r.user }
  else r

/-- The map `remove_connection` routes the given role to when the key is
registered there (used to state the round-trip claim). -/
def roleDict (r : Registry) (role : String) : List (String × Finset ℕ) :=
  if role == "admin" then r.admin
  else if role == "master" then r.master
  else r.user

/-- Well-formedness of a registry map, an invariant of every reachable
state: no entry holds an empty channel set (`remove_connection` deletes an
entry that empties, `add_connection` never creates an empty one). -/
def dictWF (d : List (String × Finset ℕ)) : Prop :=
  ∀ p ∈ d, p.2 ≠ (∅ : Finset ℕ)

/-- `RealtimeService.notify_user`: when the user has live connections, put
the (serialized) event onto every one of their queues; `asyncio.Queue.put`
on a queue of unlimited capacity appends and never blocks, drops or raises. -/
def ucNotify (msg uid : String) : List (String × List (List String)) →
    List (String × List (List String))
  | [] => []
  | (a, qs) :: rest =>
    if a == uid then (a, qs.map (fun q => q ++ [msg])) :: rest
    else (a, qs) :: ucNotify msg uid rest

/-- `n` successive `notify_user` publishes of the same event to the same
subscriber (the never-drained-consumer experiment of the claim). -/
def ucNotifyN (msg uid : String) : Nat → List (String × List (List String)) →
    List (String × List (List String))
  | 0, c => c
  | n + 1, c => ucNotify msg uid (ucNotifyN msg uid n c)

end RT

/-! Concrete states used by the counterexamples and witnesses. -/

/-- An empty document store. -/
def dbEmpty : MT5.DB :=
  { users := [], groups := [], members := [], trading_accounts := [],
    settlements := [] }

/-- Group `B`, joinable by referral code `REFB` or API key `KB`. -/
def gB : MT5.GroupDoc :=
  { gid := "B", referral_code := some "REFB", api_key := "KB",
    trading_status := "active", profit_sharing_percent := 80,
    total_members := 0, active_members := 0, updated_at := 0 }

/-- A paused group `G` with a pending settlement `S` that was not
auto-paused (`auto_paused = false`, the value `submit_settlement` always
writes). -/
def dbC1 : MT5.DB :=
  { users := [], members := [], trading_accounts := [],
    groups := [{ gid := "G", referral_code := none, api_key := "KG",
                 trading_status := "paused", profit_sharing_percent := 80,
                 total_members := 0, active_members := 0, updated_at := 0 }],
    settlements := [{ sid := "S", group_id := "G", period_from := 0,
                      period_to := 10, total_profit := 15000,
                      profit_share_percent := 80, amount_due := 12000,
                      amount_paid := 12000, payment_method := "bank",
                      payment_reference := "UTR1", status := "pending",
                      submitted_by := "mgr", approved_by := none,
                      approved_at := none, remarks := none,
                      auto_paused := false, submitted_at := 0,
                      updated_at := 0 }] }

/-- User `u` holds a pending membership in group `A` while group `B`
exists: the starting point of the direct-join counterexample. -/
def dbC2 : MT5.DB :=
  { users := [], trading_accounts := [], settlements := [],
    groups := [gB],
    members := [{ mid := "m1", user_id := "u", group_id := "A",
                  account_id := none, status := "pending",
                  opening_balance := 0, joined_at := some 0,
                  approved_at := none, approved_by := none,
                  left_at := none }] }

/-- User `u` is an active member of group `A` with an active trading
account, but their `ib_status` is `pending`; group `B` is joinable. -/
def dbC3 : MT5.DB :=
  { users := [{ uid := "u", ib_status := "pending", group_id := some "A",
                group_join_date := some 0, referral_code_used := some "REFA",
                updated_at := 0 }],
    groups := [gB],
    members := [{ mid := "mA", user_id := "u", group_id := "A",
                  account_id := some "a1", status := "active",
                  opening_balance := 100, joined_at := some 0,
                  approved_at := some 0, approved_by := some "adm",
                  left_at := none }],
    trading_accounts := [{ aid := "a1", user_id := "u", group_id := some "A",
                           status := "active", updated_at := 0 }],
    settlements := [] }

/-- A settlement `S` already in the terminal `approved` state, approved by
`adm1`. -/
def dbC4 : MT5.DB :=
  { users := [], groups := [], members := [], trading_accounts := [],
    settlements := [{ sid := "S", group_id := "G", period_from := 0,
                      period_to := 10, total_profit := 15000,
                      profit_share_percent := 80, amount_due := 12000,
                      amount_paid := 12000, payment_method := "bank",
                      payment_reference := "UTR1", status := "approved",
                      submitted_by := "mgr", approved_by := some "adm1",
                      approved_at := some 1, remarks := none,
                      auto_paused := false, submitted_at := 0,
                      updated_at := 1 }] }

/-- The terminal settlement stored in `dbC4`. -/
def dbC4S : MT5.SettlementDoc :=
  { sid := "S", group_id := "G", period_from := 0, period_to := 10,
    total_profit := 15000, profit_share_percent := 80, amount_due := 12000,
    amount_paid := 12000, payment_method := "bank",
    payment_reference := "UTR1", status := "approved", submitted_by := "mgr",
    approved_by := some "adm1", approved_at := some 1, remarks := none,
    auto_paused := false, submitted_at := 0, updated_at := 1 }

/-- IB-approved user `u` with no membership at all; group `B` is joinable
by referral. -/
def dbC5 : MT5.DB :=
  { users := [{ uid := "u", ib_status := "approved", group_id := none,
                group_join_date := none, referral_code_used := none,
                updated_at := 0 }],
    groups := [gB], members := [], trading_accounts := [], settlements := [] }

/-- The user document of `dbC5`. -/
def uC5 : MT5.UserDoc :=
  { uid := "u", ib_status := "approved", group_id := none,
    group_join_date := none, referral_code_used := none, updated_at := 0 }

/-- A pending member `m1` of group `B` with trading account `a1`. -/
def dbC7 : MT5.DB :=
  { users := [], groups := [], settlements := [],
    members := [{ mid := "m1", user_id := "u", group_id := "B",
                  account_id := some "a1", status := "pending",
                  opening_balance := 0, joined_at := some 0,
                  approved_at := none, approved_by := none,
                  left_at := none }],
    trading_accounts := [{ aid := "a1", user_id := "u", group_id := some "B",
                           status := "pending", updated_at := 0 }] }

/-- The state after `approve_member` runs on `dbC7` at clock 4. -/
def dbC7b : MT5.DB :=
  { users := [], groups := [], settlements := [],
    members := [{ mid := "m1", user_id := "u", group_id := "B",
                  account_id := some "a1", status := "active",
                  opening_balance := 0, joined_at := some 0,
                  approved_at := some 4, approved_by := some "adm",
                  left_at := none }],
    trading_accounts := [{ aid := "a1", user_id := "u", group_id := some "B",
                           status := "approved", updated_at := 4 }] }

/-- A pending member `m1` of group `B`, whose group currently records
`active_members = 0`. -/
def dbC8 : MT5.DB :=
  { users := [], trading_accounts := [], settlements := [],
    groups := [{ gid := "B", referral_code := some "REFB", api_key := "KB",
                 trading_status := "active", profit_sharing_percent := 80,
                 total_members := 1, active_members := 0, updated_at := 0 }],
    members := [{ mid := "m1", user_id := "u", group_id := "B",
                  account_id := none, status := "pending",
                  opening_balance := 0, joined_at := some 0,
                  approved_at := none, approved_by := none,
                  left_at := none }] }

/-- One subscriber `u` with a single, never-drained, initially empty
channel. -/
def uc0 : List (String × List (List String)) := [("u", [[]])]

/-- A registry with one admin connection and one plain-user connection. -/
def rC10 : RT.Registry :=
  { admin := [("a", {1})], master := [], user := [("u", {2})] }

/-- The pending settlement stored in `dbC1`. -/
def dbC1S : MT5.SettlementDoc :=
  { sid := "S", group_id := "G", period_from := 0, period_to := 10,
    total_profit := 15000, profit_share_percent := 80, amount_due := 12000,
    amount_paid := 12000, payment_method := "bank",
    payment_reference := "UTR1", status := "pending", submitted_by := "mgr",
    approved_by := none, approved_at := none, remarks := none,
    auto_paused := false, submitted_at := 0, updated_at := 0 }

/-- A settlement submission for group `B`. -/
def inp6 : MT5.SettleIn :=
  { group_id := "B", period_from := 0, period_to := 7, amount_paid := 10,
    payment_method := "bank", payment_reference := "UTR9" }

/-- A group update that edits `profit_sharing_percent` to 50 (the `$set`
dictionary of an `update_group` call). -/
def pctUpd50 (g : MT5.GroupDoc) : MT5.GroupDoc :=
  { g with profit_sharing_percent := 50 }

/-! Generic lemmas about the collection-update primitives. -/

theorem updateFirst_of_find?_eq_none (p : α → Bool) (f : α → α) :
    ∀ l : List α, l.find? p = none → updateFirst p f l = l
  | [], _ => rfl
  | x :: xs, h => by
    cases hp : p x with
    | true =>
      rw [List.find?_cons_of_pos _ hp] at h
      exact absurd h (by simp)
    | false =>
      rw [List.find?_cons_of_neg _ (by simp [hp])] at h
      simp [updateFirst, hp, updateFirst_of_find?_eq_none p f xs h]

theorem find?_updateFirst (p : α → Bool) (f : α → α) :
    ∀ (l : List α) (a : α), l.find? p = some a → p (f a) = true →
      (updateFirst p f l).find? p = some (f a)
  | x :: xs, a, h, hfa => by
    cases hp : p x with
    | true =>
      rw [List.find?_cons_of_pos _ hp] at h
      injection h with h
      subst h
      simp [updateFirst, hp, List.find?_cons_of_pos _ hfa]
    | false =>
      rw [List.find?_cons_of_neg _ (by simp [hp])] at h
      have ih := find?_updateFirst p f xs a h hfa
      simp [updateFirst, hp, List.find?_cons_of_neg _ (by simp [hp] : ¬ p x = true), ih]

theorem updateFirst_of_fix (p : α → Bool) (f : α → α) :
    ∀ (l : List α) (a : α), l.find? p = some a → f a = a → updateFirst p f l = l
  | x :: xs, a, h, hfa => by
    cases hp : p x with
    | true =>
      rw [List.find?_cons_of_pos _ hp] at h
      injection h with h
      subst h
      simp [updateFirst, hp, hfa]
    | false =>
      rw [List.find?_cons_of_neg _ (by simp [hp])] at h
      simp [updateFirst, hp, updateFirst_of_fix p f xs a h hfa]

theorem countP_map_le_of (p : α → Bool) (f : α → α)
    (h : ∀ a, p (f a) = true → p a = true) :
    ∀ l : List α, (l.map f).countP p ≤ l.countP p
  | [] => le_refl _
  | x :: xs => by
    rw [List.map_cons, List.countP_cons, List.countP_cons]
    have hx : (if p (f x) then 1 else 0) ≤ (if p x then 1 else 0) := by
      cases hpf : p (f x) with
      | true => simp [h x hpf]
      | false => simp
    exact Nat.add_le_add (countP_map_le_of p f h xs) hx

theorem countP_eq_zero_of_find?_eq_none (p q : α → Bool)
    (himp : ∀ a, p a = true → q a = true) (l : List α)
    (h : l.find? q = none) : l.countP p = 0 := by
  rw [List.countP_eq_zero]
  intro a ha hpa
  rw [List.find?_eq_none] at h
  exact h a ha (himp a hpa)

/-! Lemmas about the realtime connection registry. -/

namespace RT

theorem dictHas_dictAdd (k : String) (q : ℕ) :
    ∀ d, dictHas (dictAdd k q d) k = true
  | [] => by simp [dictAdd, dictHas, List.lookup]
  | (a, s) :: rest => by
    by_cases h : a = k
    · simp [dictAdd, dictHas, List.lookup, h]
    · have hk : (k == a) = false := by simp [Ne.symm h]
      simpa [dictAdd, dictHas, List.lookup, h, hk] using dictHas_dictAdd k q rest

theorem dict_roundtrip (k : String) (q : ℕ) :
    ∀ d : List (String × Finset ℕ), dictWF d → q ∉ dictSet d k →
      dictRemove k q (dictAdd k q d) = d
  | [], _, _ => by simp [dictAdd, dictRemove]
  | (a, s) :: rest, hwf, hq => by
    by_cases h : a = k
    · subst h
      have hqs : q ∉ s := by
        simpa [dictSet, List.lookup] using hq
      have hs : s ≠ ∅ := hwf (a, s) (by simp)
      simp [dictAdd, dictRemove, Finset.erase_insert hqs, hs]
    · have hka : (k == a) = false := by simp [Ne.symm h]
      have hq' : q ∉ dictSet rest k := by
        simpa [dictSet, List.lookup, hka] using hq
      have hwf' : dictWF rest := fun p hp => hwf p (List.mem_cons_of_mem _ hp)
      simp [dictAdd, dictRemove, h, dict_roundtrip k q rest hwf' hq']

theorem dictWF_dictAdd (k : String) (q : ℕ) :
    ∀ d, dictWF d → dictWF (dictAdd k q d)
  | [], _ => by
    intro p hp
    simp [dictAdd] at hp
    simp [hp]
  | (a, s) :: rest, hwf => by
    by_cases h : a = k
    · intro p hp
      simp only [dictAdd, h, beq_self_eq_true, if_true] at hp
      rcases List.mem_cons.mp hp with h1 | h1
      · simp [h1]
      · exact hwf p (List.mem_cons_of_mem _ h1)
    · intro p hp
      have hk : (a == k) = false := by simp [h]
      simp only [dictAdd, hk, Bool.false_eq_true, if_false] at hp
      rcases List.mem_cons.mp hp with h1 | h1
      · exact hwf p (h1 ▸ List.mem_cons_self _ _)
      · exact dictWF_dictAdd k q rest
          (fun x hx => hwf x (List.mem_cons_of_mem _ hx)) p h1

theorem dictWF_dictRemove (k : String) (q : ℕ) :
    ∀ d, dictWF d → dictWF (dictRemove k q d)
  | [], _ => by intro p hp; simp [dictRemove] at hp
  | (a, s) :: rest, hwf => by
    by_cases h : a = k
    · by_cases he : s.erase q = ∅
      · intro p hp
        simp only [dictRemove, h, beq_self_eq_true, if_true, he] at hp
        exact hwf p (List.mem_cons_of_mem _ (by simpa using hp))
      · intro p hp
        simp only [dictRemove, h, beq_self_eq_true, if_true, if_neg he] at hp
        rcases List.mem_cons.mp hp with h1 | h1
        · simpa [h1] using he
        · exact hwf p (List.mem_cons_of_mem _ h1)
    · intro p hp
      have hk : (a == k) = false := by simp [h]
      simp only [dictRemove, hk, Bool.false_eq_true, if_false] at hp
      rcases List.mem_cons.mp hp with h1 | h1
      · exact hwf p (h1 ▸ List.mem_cons_self _ _)
      · exact dictWF_dictRemove k q rest
          (fun x hx => hwf x (List.mem_cons_of_mem _ hx)) p h1

theorem ucNotify_lookup (msg uid : String) :
    ∀ (c : List (String × List (List String))) (qs : List (List String)),
      c.lookup uid = some qs →
      (ucNotify msg uid c).lookup uid = some (qs.map (fun q => q ++ [msg]))
  | (a, bs) :: rest, qs, h => by
    by_cases ha : a = uid
    · subst ha
      simp [List.lookup] at h
      subst h
      simp [ucNotify, List.lookup]
    · have h1 : (uid == a) = false := by simp [Ne.symm ha]
      have h2 : (a == uid) = false := by simp [ha]
      simp [List.lookup, h1] at h
      simp [ucNotify, h2, List.lookup, h1]
      exact ucNotify_lookup msg uid rest qs h

theorem ucNotify_lookup_none (msg uid : String) :
    ∀ c : List (String × List (List String)),
      c.lookup uid = none → ucNotify msg uid c = c
  | [], _ => rfl
  | (a, bs) :: rest, h => by
    by_cases ha : a = uid
    · subst ha
      simp [List.lookup] at h
    · have h1 : (uid == a) = false := by simp [Ne.symm ha]
      have h2 : (a == uid) = false := by simp [ha]
      simp only [List.lookup, h1] at h
      simp [ucNotify, h2, ucNotify_lookup_none msg uid rest h]

theorem ucNotifyN_lookup (msg uid : String) :
    ∀ (n : Nat) (c : List (String × List (List String))) (qs : List (List String)),
      c.lookup uid = some qs →
      (ucNotifyN msg uid n c).lookup uid
        = some (qs.map (fun q => q ++ List.replicate n msg))
  | 0, c, qs, h => by simpa [ucNotifyN] using h
  | n + 1, c, qs, h => by
    have ih := ucNotifyN_lookup msg uid n c qs h
    have step := ucNotify_lookup msg uid (ucNotifyN msg uid n c) _ ih
    rw [ucNotifyN, step]
    congr 1
    rw [List.map_map]
    apply List.map_congr_left
    intro q _
    simp [List.replicate_succ' n msg, List.append_assoc]

theorem ucNotifyN_none (msg uid : String) :
    ∀ (n : Nat) (c : List (String × List (List String))),
      c.lookup uid = none → ucNotifyN msg uid n c = c
  | 0, _, _ => rfl
  | n + 1, c, h => by
    rw [ucNotifyN, ucNotifyN_none msg uid n c h, ucNotify_lookup_none msg uid c h]

end RT

/-- C9 counterexample: the claim asserts a fixed bounded capacity for every
subscriber channel.  In the code every channel is a default `asyncio.Queue()`
of unlimited capacity and `notify_user` only ever appends, so for the
registry holding one never-drained channel of subscriber `u` there is no
bound `B` that the queue length respects over all publish counts: after `n`
publishes the queue holds exactly `n` events, and no dropped-event counter
exists anywhere in `realtime_service.py`. -/
theorem C9_counterexample :
    ¬ ∃ B : ℕ, ∀ n : ℕ,
      ((((RT.ucNotifyN "e" "u" n uc0).lookup "u").getD []).headD []).length ≤ B := by
  rintro ⟨B, hB⟩
  have h := RT.ucNotifyN_lookup "e" "u" (B + 1) uc0 [[]] (by decide)
  have hBB := hB (B + 1)
  rw [h] at hBB
  simp at hBB

/-- C9 (amended): per-channel queues are unbounded; `notify_user` appends
the event to every queue of the target subscriber and never blocks, drops an
event, errors, or counts drops — after `n` publishes to a never-drained
subscriber every one of their queues has grown by exactly the `n` published
events (in order), and a publish to an unknown subscriber is a silent no-op
leaving the registry untouched. -/
theorem C9_unbounded_publish (c : List (String × List (List String)))
    (msg uid : String) (n : Nat) :
    (∀ qs, c.lookup uid = some qs →
      (RT.ucNotifyN msg uid n c).lookup uid
        = some (qs.map (fun q => q ++ List.replicate n msg))) ∧
    (c.lookup uid = none → RT.ucNotifyN msg uid n c = c) :=
  ⟨fun qs h => RT.ucNotifyN_lookup msg uid n c qs h,
   fun h => RT.ucNotifyN_none msg uid n c h⟩

/-- Witness for the amended C9 theorem at concrete inputs. -/
theorem C9_unbounded_publish_witness :
    (RT.ucNotifyN "e" "u" 2 uc0).lookup "u" = some [["e", "e"]] ∧
    RT.ucNotifyN "e" "u" 2 [("v", [[]])] = [("v", [[]])] :=
  ⟨((C9_unbounded_publish uc0 "e" "u" 2).1 [[]] (by decide)).trans (by decide),
   (C9_unbounded_publish [("v", [[]])] "e" "u" 2).2 (by decide)⟩

/-- C10 (confirmed): on a well-formed registry (no entry stores an empty
channel set — the invariant `add_connection`/`remove_connection` maintain,
see `RT.dictWF_dictAdd` and `RT.dictWF_dictRemove`), adding a connection
`(user_id, user_role, queue)` whose queue is not already registered for that
subscriber and role and then removing the same triple returns the registry
exactly to its prior state; in particular a channel set that empties has its
map entry deleted rather than left behind. -/
theorem C10_subscribe_unsubscribe_roundtrip (r : RT.Registry)
    (uid role : String) (q : ℕ)
    (hwf : RT.dictWF (RT.roleDict r role))
    (hq : q ∉ RT.dictSet (RT.roleDict r role) uid) :
    RT.removeConnection uid role q (RT.addConnection uid role q r) = r := by
  by_cases ha : role = "admin"
  · subst ha
    have hwf' : RT.dictWF r.admin := by simpa [RT.roleDict] using hwf
    have hq' : q ∉ RT.dictSet r.admin uid := by simpa [RT.roleDict] using hq
    simp [RT.addConnection, RT.removeConnection, RT.dictHas_dictAdd,
      RT.dict_roundtrip uid q r.admin hwf' hq']
  · by_cases hm : role = "master"
    · subst hm
      have hwf' : RT.dictWF r.master := by simpa [RT.roleDict] using hwf
      have hq' : q ∉ RT.dictSet r.master uid := by simpa [RT.roleDict] using hq
      simp [RT.addConnection, RT.removeConnection, RT.dictHas_dictAdd,
        RT.dict_roundtrip uid q r.master hwf' hq']
    · have hwf' : RT.dictWF r.user := by simpa [RT.roleDict, ha, hm] using hwf
      have hq' : q ∉ RT.dictSet r.user uid := by simpa [RT.roleDict, ha, hm] using hq
      simp [RT.addConnection, RT.removeConnection, RT.dictHas_dictAdd, ha, hm,
        RT.dict_roundtrip uid q r.user hwf' hq']

/-- Witness for the C10 round-trip theorem at a concrete registry. -/
theorem C10_roundtrip_witness :
    RT.removeConnection "u" "trader" 3 (RT.addConnection "u" "trader" 3 rC10) = rC10 :=
  C10_subscribe_unsubscribe_roundtrip rC10 "u" "trader" 3
    (by decide : ∀ p ∈ [("u", ({2} : Finset ℕ))], p.2 ≠ (∅ : Finset ℕ))
    (by decide : (3 : ℕ) ∉ ({2} : Finset ℕ))

/-! Lemmas about the settlement lifecycle. -/

namespace MT5

theorem toggleTradingStatus_resumes (t : Nat) (gid : String) (db : DB)
    (g0 : GroupDoc) (hg : db.groups.find? (fun g => g.gid == gid) = some g0) :
    ((toggleTradingStatus t gid "active" db).1.groups.find?
        (fun g => g.gid == gid)).map GroupDoc.trading_status = some "active" := by
  have hpg : (g0.gid == gid) = true := by simpa using List.find?_some hg
  unfold toggleTradingStatus
  rw [hg]
  simp only [Option.isSome_some, if_true]
  rw [find?_updateFirst _ _ db.groups g0 hg (by simpa using hpg)]
  rfl

theorem approveSettlement_approved_fst (t : Nat) (sid : String)
    (remarks : Option String) (adminId : String) (db : DB) (st : SettlementDoc)
    (hfind : db.settlements.find? (fun s => s.sid == sid) = some st) :
    (approveSettlement t sid "approved" remarks adminId db).1 =
      (toggleTradingStatus t st.group_id "active"
        { db with settlements := (updateFirst (fun s => s.sid == sid)
            (applySettlementApproval t "approved" remarks adminId)
            db.settlements) }).1 := by
  have hp : (st.sid == sid) = true := by simpa using List.find?_some hfind
  have hupd := find?_updateFirst (fun s => s.sid == sid)
      (applySettlementApproval t "approved" remarks adminId)
      db.settlements st hfind (by simpa [applySettlementApproval] using hp)
  unfold approveSettlement
  simp only [beq_self_eq_true, if_true]
  rw [hupd]
  rfl

theorem approveSettlement_fst_settlements (t : Nat) (sid stat : String)
    (remarks : Option String) (adminId : String) (db : DB) :
    (approveSettlement t sid stat remarks adminId db).1.settlements =
      updateFirst (fun s => s.sid == sid)
        (applySettlementApproval t stat remarks adminId) db.settlements := by
  simp only [approveSettlement, toggleTradingStatus]
  repeat' split
  all_goals rfl

end MT5

/-- C1 counterexample: the claim requires that approving a settlement of a
group that was not auto-paused leaves the group's `trading_status`
unchanged.  In `dbC1` the settlement `S` has `auto_paused = false` (the only
value `submit_settlement` ever writes) and group `G` is `paused`; approving
`S` nevertheless flips `G` to `active`, because `resume_group_if_paused`
never consults any auto-pause flag. -/
theorem C1_counterexample :
    (dbC1.settlements.map MT5.SettlementDoc.auto_paused = [false]) ∧
    ((dbC1.groups.find? (fun g => g.gid == "G")).map MT5.GroupDoc.trading_status
      = some "paused") ∧
    (((MT5.approveSettlement 5 "S" "approved" none "adm" dbC1).1.groups.find?
        (fun g => g.gid == "G")).map MT5.GroupDoc.trading_status
      = some "active") := by
  refine ⟨by decide, by decide, by decide⟩

/-- C1 (amended): approving a settlement with status `approved` always
resumes the owning group to `active`, whether or not it was auto-paused for
that settlement, whenever the settlement and its owning group exist; no
`resume_time` is stamped anywhere (`submit_settlement` records no such field
and `approve_settlement` writes none). -/
theorem C1_approval_always_resumes (db : MT5.DB) (t : Nat) (sid : String)
    (remarks : Option String) (adminId : String) (st : MT5.SettlementDoc)
    (hfind : db.settlements.find? (fun s => s.sid == sid) = some st)
    (hg : (db.groups.find? (fun g => g.gid == st.group_id)).isSome = true) :
    ((MT5.approveSettlement t sid "approved" remarks adminId db).1.groups.find?
        (fun g => g.gid == st.group_id)).map MT5.GroupDoc.trading_status
      = some "active" := by
  obtain ⟨g0, hg0⟩ := Option.isSome_iff_exists.mp hg
  rw [MT5.approveSettlement_approved_fst t sid remarks adminId db st hfind]
  exact MT5.toggleTradingStatus_resumes t st.group_id _ g0 hg0

/-- Witness for the amended C1 theorem: the concrete approval of `dbC1`. -/
theorem C1_approval_always_resumes_witness :
    dbC1.settlements.find? (fun s => s.sid == "S") = some dbC1S ∧
    (dbC1.groups.find? (fun g => g.gid == dbC1S.group_id)).isSome = true ∧
    ((MT5.approveSettlement 5 "S" "approved" none "adm" dbC1).1.groups.find?
        (fun g => g.gid == dbC1S.group_id)).map MT5.GroupDoc.trading_status
      = some "active" :=
  ⟨by decide, by decide,
   C1_approval_always_resumes dbC1 5 "S" none "adm" dbC1S (by decide) (by decide)⟩

/-- C4 counterexample: the claim requires a second Approve/Reject on a
terminal settlement to fail with `AlreadyFinalized` and leave its fields
unchanged.  `dbC4` holds settlement `S` already `approved` by `adm1`;
re-approving it as `adm2` succeeds and overwrites `approved_by`. -/
theorem C4_counterexample :
    (dbC4.settlements.map MT5.SettlementDoc.approved_by = [some "adm1"]) ∧
    ((MT5.approveSettlement 7 "S" "approved" (some "again") "adm2" dbC4).2 = true) ∧
    ((MT5.approveSettlement 7 "S" "approved" (some "again") "adm2" dbC4).1.settlements.map
        MT5.SettlementDoc.approved_by = [some "adm2"]) := by
  refine ⟨by decide, by decide, by decide⟩

/-- C4 (amended): no terminal-state guard exists.  Re-invoking Approve on a
settlement already `approved` or `rejected` succeeds and overwrites status,
approver, approval time and remarks (`applySettlementApproval`);
re-invoking Reject likewise overwrites them, though the call then reports
failure ("Failed to update settlement") despite the write having happened. -/
theorem C4_terminal_not_protected (db : MT5.DB) (t : Nat) (sid : String)
    (remarks : Option String) (adminId : String) (st : MT5.SettlementDoc)
    (hfind : db.settlements.find? (fun s => s.sid == sid) = some st)
    (_hterm : st.status = "approved" ∨ st.status = "rejected") :
    ((MT5.approveSettlement t sid "approved" remarks adminId db).2 = true ∧
     (MT5.approveSettlement t sid "approved" remarks adminId db).1.settlements.find?
         (fun s => s.sid == sid)
       = some (MT5.applySettlementApproval t "approved" remarks adminId st)) ∧
    ((MT5.approveSettlement t sid "rejected" remarks adminId db).2 = false ∧
     (MT5.approveSettlement t sid "rejected" remarks adminId db).1.settlements.find?
         (fun s => s.sid == sid)
       = some (MT5.applySettlementApproval t "rejected" remarks adminId st)) := by
  have hp : (st.sid == sid) = true := by simpa using List.find?_some hfind
  refine ⟨⟨?_, ?_⟩, ⟨?_, ?_⟩⟩
  · simp [MT5.approveSettlement]
  · rw [MT5.approveSettlement_fst_settlements]
    exact find?_updateFirst _ _ db.settlements st hfind
      (by simpa [MT5.applySettlementApproval] using hp)
  · simp [MT5.approveSettlement]
  · rw [MT5.approveSettlement_fst_settlements]
    exact find?_updateFirst _ _ db.settlements st hfind
      (by simpa [MT5.applySettlementApproval] using hp)

/-- Witness for the amended C4 theorem at the terminal settlement of
`dbC4`. -/
theorem C4_terminal_not_protected_witness :
    dbC4.settlements.find? (fun s => s.sid == "S") = some dbC4S ∧
    dbC4S.status = "approved" ∧
    (MT5.approveSettlement 7 "S" "approved" (some "again") "adm2" dbC4).2 = true :=
  ⟨by decide, by decide,
   ((C4_terminal_not_protected dbC4 7 "S" (some "again") "adm2" dbC4S
      (by decide) (Or.inl (by decide))).1).1⟩

/-- C6 (confirmed): a successful submission appends a settlement whose
`profit_share_percent` is the group's percentage snapshotted at submission
time and whose `amount_due` equals `total_profit * (percent / 100)`; and
`update_group` — the operation through which `profit_sharing_percent` is
edited — only ever rewrites the `groups` collection, leaving every stored
settlement record, hence every historic `amount_due` and snapshot, intact. -/
theorem C6_snapshot_immutable (db : MT5.DB) (t : Nat) (sid : String)
    (inp : MT5.SettleIn) (grossProfit : ℚ) (submitter : String)
    (g : MT5.GroupDoc)
    (hg : db.groups.find? (fun x => x.gid == inp.group_id) = some g) :
    ((MT5.submitSettlement t sid inp grossProfit submitter db).2 = true ∧
     ∃ sdoc : MT5.SettlementDoc,
       (MT5.submitSettlement t sid inp grossProfit submitter db).1.settlements
         = db.settlements ++ [sdoc] ∧
       sdoc.profit_share_percent = g.profit_sharing_percent ∧
       sdoc.total_profit = grossProfit ∧
       sdoc.amount_due = sdoc.total_profit * (sdoc.profit_share_percent / 100)) ∧
    (∀ (t2 : Nat) (gid2 : String) (f : MT5.GroupDoc → MT5.GroupDoc),
      (MT5.updateGroup t2 gid2 f db).1.settlements = db.settlements) := by
  constructor
  · unfold MT5.submitSettlement
    rw [hg]
    exact ⟨rfl, ⟨_, rfl, rfl, rfl, rfl⟩⟩
  · intro t2 gid2 f
    unfold MT5.updateGroup
    split
    · rfl
    · rfl

/-- Witness for the C6 theorem: submit a settlement for group `B` of
`dbC5`, then edit the group's percentage; the stored settlements are
untouched by the edit. -/
theorem C6_snapshot_immutable_witness :
    dbC5.groups.find? (fun x => x.gid == inp6.group_id) = some gB ∧
    (MT5.submitSettlement 1 "S1" inp6 100 "mgr" dbC5).2 = true ∧
    (MT5.updateGroup 2 "B" pctUpd50 dbC5).1.settlements = dbC5.settlements :=
  ⟨by decide,
   (C6_snapshot_immutable dbC5 1 "S1" inp6 100 "mgr" gB (by decide)).1.1,
   (C6_snapshot_immutable dbC5 1 "S1" inp6 100 "mgr" gB (by decide)).2 2 "B" pctUpd50⟩

/-! Lemmas about member approval. -/

namespace MT5

theorem approveMember_noop (t : Nat) (adminId mid : String) (db : DB) (m : MemberDoc)
    (hfind : db.members.find? (fun x => x.mid == mid) = some m)
    (hst : m.status = "active") (hat : m.approved_at = some t)
    (hby : m.approved_by = some adminId) :
    approveMember t adminId mid db = (db, Outcome.httpError 404 "Member not found") := by
  have hfix : applyMemberApproval t adminId m = m := by
    cases m
    simp_all [applyMemberApproval]
  have hmod : (m.status == "active" && m.approved_at == some t
      && m.approved_by == some adminId) = true := by
    simp [hst, hat, hby]
  unfold approveMember
  rw [hfind]
  simp only [hmod, Bool.not_true, Bool.false_eq_true, if_false]
  rw [updateFirst_of_fix _ _ db.members m hfind hfix]

theorem approveMember_modified_out (t : Nat) (adminId mid : String) (db : DB)
    (m : MemberDoc)
    (hfind : db.members.find? (fun x => x.mid == mid) = some m)
    (hmod : (m.status == "active" && m.approved_at == some t
      && m.approved_by == some adminId) = false) :
    (approveMember t adminId mid db).2 = Outcome.success ∧
    (approveMember t adminId mid db).1.members =
      updateFirst (fun x => x.mid == mid) (applyMemberApproval t adminId)
        db.members := by
  unfold approveMember
  rw [hfind]
  simp only [hmod, Bool.not_false, if_true]
  constructor
  · repeat' split
    all_goals rfl
  · repeat' split
    all_goals rfl

theorem approveMember_success_inv (t : Nat) (adminId mid : String) (db db1 : DB)
    (h : approveMember t adminId mid db = (db1, Outcome.success)) :
    ∃ m, db.members.find? (fun x => x.mid == mid) = some m ∧
      (m.status == "active" && m.approved_at == some t
        && m.approved_by == some adminId) = false ∧
      db1.members = updateFirst (fun x => x.mid == mid)
        (applyMemberApproval t adminId) db.members := by
  unfold approveMember at h
  cases hfind : db.members.find? (fun x => x.mid == mid) with
  | none =>
    rw [hfind] at h
    simp at h
  | some m =>
    rw [hfind] at h
    by_cases hmod : (m.status == "active" && m.approved_at == some t
        && m.approved_by == some adminId) = true
    · simp only [hmod, Bool.not_true, Bool.false_eq_true, if_false] at h
      simp at h
    · have hmodf : (m.status == "active" && m.approved_at == some t
          && m.approved_by == some adminId) = false := by
        simpa using hmod
      refine ⟨m, rfl, hmodf, ?_⟩
      simp only [hmodf, Bool.not_false, if_true] at h
      have h1 := congrArg (fun z => z.1.members) h
      simp only at h1
      rw [← h1]
      repeat' split
      all_goals rfl

end MT5

/-- C7 counterexample: the claim requires the second Approve of the same
member to succeed.  After approving pending member `m1` of `dbC7` at clock
4, a second Approve at the same clock writes values identical to the stored
ones, MongoDB reports `modified_count = 0`, and the endpoint raises 404
"Member not found" instead of succeeding. -/
theorem C7_counterexample :
    MT5.approveMember 4 "adm" "m1" dbC7 = (dbC7b, MT5.Outcome.success) ∧
    MT5.approveMember 4 "adm" "m1" dbC7b
      = (dbC7b, MT5.Outcome.httpError 404 "Member not found") := by
  refine ⟨by decide, by decide⟩

/-- C7 (amended): a second Approve of an already-approved member is not an
idempotent no-op success.  When it would write exactly the stored values
(same clock instant and approver) it fails with 404 "Member not found" and
changes nothing; at any other clock instant it succeeds but overwrites the
member's `approved_at` with the new time (and re-stamps the trading
account), so the end state differs from the once-approved state. -/
theorem C7_second_approve_not_noop (db db1 : MT5.DB) (t : Nat)
    (adminId mid : String)
    (h : MT5.approveMember t adminId mid db = (db1, MT5.Outcome.success)) :
    (MT5.approveMember t adminId mid db1
       = (db1, MT5.Outcome.httpError 404 "Member not found")) ∧
    (∀ t2, t2 ≠ t →
      (MT5.approveMember t2 adminId mid db1).2 = MT5.Outcome.success ∧
      ((MT5.approveMember t2 adminId mid db1).1.members.find?
          (fun m => m.mid == mid)).map MT5.MemberDoc.approved_at
        = some (some t2)) := by
  obtain ⟨m, hfind, hmodf, hmem⟩ := MT5.approveMember_success_inv t adminId mid db db1 h
  have hp : (m.mid == mid) = true := by simpa using List.find?_some hfind
  have hpf : ((MT5.applyMemberApproval t adminId m).mid == mid) = true := by
    simpa [MT5.applyMemberApproval] using hp
  have hfind1 : db1.members.find? (fun x => x.mid == mid)
      = some (MT5.applyMemberApproval t adminId m) := by
    rw [hmem]
    exact find?_updateFirst _ _ db.members m hfind hpf
  constructor
  · exact MT5.approveMember_noop t adminId mid db1 (MT5.applyMemberApproval t adminId m)
      hfind1 rfl rfl rfl
  · intro t2 hne
    have hmod2 : ((MT5.applyMemberApproval t adminId m).status == "active"
        && (MT5.applyMemberApproval t adminId m).approved_at == some t2
        && (MT5.applyMemberApproval t adminId m).approved_by == some adminId) = false := by
      simp [MT5.applyMemberApproval, Ne.symm hne]
    obtain ⟨hs, hm2⟩ := MT5.approveMember_modified_out t2 adminId mid db1
      (MT5.applyMemberApproval t adminId m) hfind1 hmod2
    refine ⟨hs, ?_⟩
    rw [hm2]
    rw [find?_updateFirst _ _ db1.members (MT5.applyMemberApproval t adminId m) hfind1
      (by simpa [MT5.applyMemberApproval] using hp)]
    rfl

/-- Witness for the amended C7 theorem at the concrete member of `dbC7`. -/
theorem C7_second_approve_not_noop_witness :
    MT5.approveMember 4 "adm" "m1" dbC7b
      = (dbC7b, MT5.Outcome.httpError 404 "Member not found") :=
  (C7_second_approve_not_noop dbC7 dbC7b 4 "adm" "m1" (by decide)).1

/-- C8 counterexample: the claim requires a successful Approve to recompute
the owning group's counters, increasing `active_members` by 1.  Approving
pending member `m1` of group `B` in `dbC8` succeeds yet leaves the group
document — `active_members` included — exactly as it was (still 0):
`approve_member` in `api/groups.py` never calls
`update_group_member_count`. -/
theorem C8_counterexample :
    ((MT5.approveMember 2 "adm" "m1" dbC8).2 = MT5.Outcome.success) ∧
    (dbC8.groups.map MT5.GroupDoc.active_members = [0]) ∧
    ((MT5.approveMember 2 "adm" "m1" dbC8).1.groups.map
        MT5.GroupDoc.active_members = [0]) := by
  refine ⟨by decide, by decide, by decide⟩

/-- C8 (amended): `approve_member` performs no recomputation of group
counters at all — on every path (success, not-found, no-op) the `groups`
collection is returned unchanged; `total_members`/`active_members` are
recomputed only by `MemberService.update_group_member_count`, which only
`add_member_to_group` invokes. -/
theorem C8_approve_leaves_groups (db : MT5.DB) (t : Nat) (adminId mid : String) :
    (MT5.approveMember t adminId mid db).1.groups = db.groups := by
  simp only [MT5.approveMember]
  repeat' split
  all_goals rfl

/-! Lemmas about the join endpoints. -/

namespace MT5

theorem joinReferral_behavior (db : DB) (t : Nat) (uid code : String)
    (g : GroupDoc) (u : UserDoc)
    (hgrp : db.groups.find? (matchesRef code) = some g)
    (huser : db.users.find? (fun x => x.uid == uid) = some u) :
    (u.ib_status = "approved" →
      (joinGroupByReferral t uid code db).2 = Outcome.success ∧
      (joinGroupByReferral t uid code db).1.members.length = db.members.length ∧
      ((joinGroupByReferral t uid code db).1.users.find?
          (fun x => x.uid == uid)).map UserDoc.group_id = some (some g.gid)) ∧
    (u.ib_status ≠ "approved" →
      (joinGroupByReferral t uid code db).2
        = Outcome.httpError 400 "IB change must be approved before joining a group" ∧
      (joinGroupByReferral t uid code db).1.members.length = db.members.length) := by
  have hup : (u.uid == uid) = true := by simpa using List.find?_some huser
  have key : ∃ (db1 : DB) (u1 : UserDoc),
      db1.users.find? (fun x => x.uid == uid) = some u1 ∧
      u1.ib_status = u.ib_status ∧
      db1.members.length = db.members.length ∧
      joinGroupByReferral t uid code db =
        (if u1.ib_status == "approved" then
          (setUserGroup t uid g.gid (some code) db1, Outcome.success)
         else
          (db1, Outcome.httpError 400
            "IB change must be approved before joining a group")) := by
    cases hprev : db.users.find? (fun x => x.uid == uid && x.group_id.isSome) with
    | none =>
      refine ⟨db, u, huser, rfl, rfl, ?_⟩
      unfold joinGroupByReferral
      rw [hgrp]
      simp only [hprev]
      rw [huser]
    | some prev =>
      cases hpg : prev.group_id with
      | none =>
        exfalso
        have hprevsome := List.find?_some hprev
        simp [hpg] at hprevsome
      | some pg =>
        have hu1 : (gracefulLeave t uid pg db).users.find?
            (fun x => x.uid == uid) = some (leaveUserUpdate t u) :=
          find?_updateFirst _ _ db.users u huser
            (by simpa [leaveUserUpdate] using hup)
        refine ⟨gracefulLeave t uid pg db, leaveUserUpdate t u,
          hu1, rfl, by simp [gracefulLeave], ?_⟩
        unfold joinGroupByReferral
        rw [hgrp]
        simp only [hprev, hpg]
        rw [hu1]
  obtain ⟨db1, u1, hu1, hib1, hlen, heq⟩ := key
  have hu1p : (u1.uid == uid) = true := by simpa using List.find?_some hu1
  constructor
  · intro hib
    have hc : (u1.ib_status == "approved") = true := by simp [hib1, hib]
    rw [heq]
    simp only [hc, if_true]
    refine ⟨by trivial, hlen, ?_⟩
    have hset := find?_updateFirst (fun x => x.uid == uid)
      (joinUserUpdate t g.gid (some code))
      db1.users u1 hu1 (by simpa [joinUserUpdate] using hu1p)
    simp only [setUserGroup]
    rw [hset]
    rfl
  · intro hib
    have hc : (u1.ib_status == "approved") = false := by simp [hib1, hib]
    rw [heq]
    simp only [hc, Bool.false_eq_true, if_false]
    exact ⟨by trivial, hlen⟩

theorem addMember_creates_active (t2 : Nat) (mid2 : String) (inp : NewMemberIn)
    (db2 db3 : DB)
    (h : addMemberToGroup t2 mid2 inp db2 = (db3, true)) :
    ∃ m : MemberDoc, db3.members = db2.members ++ [m] ∧ m.status = "active" := by
  unfold addMemberToGroup at h
  cases h1 : db2.users.find? (fun x => x.uid == inp.user_id) with
  | none => rw [h1] at h; simp at h
  | some u2 =>
    rw [h1] at h
    cases h2 : db2.groups.find? (fun g => g.gid == inp.group_id) with
    | none => rw [h2] at h; simp at h
    | some g2 =>
      rw [h2] at h
      by_cases h3 : (db2.members.find? (fun m => m.user_id == inp.user_id
          && m.group_id == inp.group_id && m.status != "deleted")).isSome = true
      · simp only [h3, if_true] at h
        simp at h
      · have h3f : (db2.members.find? (fun m => m.user_id == inp.user_id
            && m.group_id == inp.group_id && m.status != "deleted")).isSome = false := by
          simpa using h3
        simp only [h3f, Bool.false_eq_true, if_false] at h
        by_cases h4 : validAccount inp = true
        · simp only [h4, Bool.not_true, Bool.false_eq_true, if_false] at h
          have h5 := congrArg (fun z => z.1.members) h
          simp only [updateGroupMemberCount] at h5
          exact ⟨_, h5.symm, rfl⟩
        · have h4f : validAccount inp = false := by simpa using h4
          simp only [h4f, Bool.not_false, if_true] at h
          simp at h

end MT5

/-- C3 counterexample: the claim requires every failing RequestJoin —
including one failing on a non-approved `ib_status` — to leave the prior
membership, its trading account, and the user's `group_id` pointer
untouched.  In `dbC3` user `u` is an active member of group `A` but has
`ib_status = pending`; joining group `B` by its valid referral code fails
with the IB error, yet only after the graceful leave has already marked the
`A` membership `left`, deactivated the trading account, and cleared the
pointer — the IB check runs after the mutation. -/
theorem C3_counterexample :
    ((MT5.joinGroupByReferral 9 "u" "REFB" dbC3).2
      = MT5.Outcome.httpError 400 "IB change must be approved before joining a group") ∧
    (dbC3.members.map MT5.MemberDoc.status = ["active"]) ∧
    ((MT5.joinGroupByReferral 9 "u" "REFB" dbC3).1.members.map MT5.MemberDoc.status
      = ["left"]) ∧
    ((MT5.joinGroupByReferral 9 "u" "REFB" dbC3).1.trading_accounts.map
        MT5.TAccountDoc.status = ["inactive"]) ∧
    (((MT5.joinGroupByReferral 9 "u" "REFB" dbC3).1.users.find?
        (fun x => x.uid == "u")).map MT5.UserDoc.group_id = some none) := by
  refine ⟨by decide, by decide, by decide, by decide, by decide⟩

/-- C3 (amended): the prior membership is protected only against a failure
of group resolution, which is checked before any mutation: when neither the
referral code / API key resolves to a group, both join endpoints raise 404
with the store completely unchanged.  A later failure (non-approved
`ib_status`) strikes after the graceful leave has already mutated the prior
membership, account and pointer. -/
theorem C3_unresolved_target_mutates_nothing (db : MT5.DB) (t : Nat)
    (uid code key : String) :
    (db.groups.find? (MT5.matchesRef code) = none →
      MT5.joinGroupByReferral t uid code db
        = (db, MT5.Outcome.httpError 404 "Invalid referral code or API key")) ∧
    (db.groups.find? (fun g => g.api_key == key) = none →
      MT5.joinGroupByApiKey t uid key db
        = (db, MT5.Outcome.httpError 404 "Invalid API key")) := by
  constructor
  · intro h
    unfold MT5.joinGroupByReferral
    rw [h]
  · intro h
    unfold MT5.joinGroupByApiKey
    rw [h]

/-- Witness for the amended C3 theorem: an unresolvable referral code and an
unresolvable API key against `dbC3` leave it untouched. -/
theorem C3_unresolved_target_witness :
    dbC3.groups.find? (MT5.matchesRef "NOPE") = none ∧
    dbC3.groups.find? (fun g => g.api_key == "NOPE") = none ∧
    MT5.joinGroupByReferral 9 "u" "NOPE" dbC3
      = (dbC3, MT5.Outcome.httpError 404 "Invalid referral code or API key") ∧
    MT5.joinGroupByApiKey 9 "u" "NOPE" dbC3
      = (dbC3, MT5.Outcome.httpError 404 "Invalid API key") :=
  ⟨by decide, by decide,
   (C3_unresolved_target_mutates_nothing dbC3 9 "u" "NOPE" "NOPE").1 (by decide),
   (C3_unresolved_target_mutates_nothing dbC3 9 "u" "NOPE" "NOPE").2 (by decide)⟩

/-- C5 counterexample: the claim requires a successful RequestJoin by a
valid referral to create a Membership record with status `pending`.  In
`dbC5` user `u` has `ib_status = approved` and joins group `B` by a valid
referral code: the call succeeds, sets the user's `group_id` pointer — and
creates no member record at all (the `members` collection stays empty). -/
theorem C5_counterexample :
    ((MT5.joinGroupByReferral 3 "u" "REFB" dbC5).2 = MT5.Outcome.success) ∧
    ((MT5.joinGroupByReferral 3 "u" "REFB" dbC5).1.members = []) ∧
    (((MT5.joinGroupByReferral 3 "u" "REFB" dbC5).1.users.find?
        (fun x => x.uid == "u")).map MT5.UserDoc.group_id = some (some "B")) := by
  refine ⟨by decide, by decide, by decide⟩

/-- C5 (amended): for an IB-approved user and a valid referral code the join
succeeds but records the membership only as the user's `group_id` pointer —
no member record is created (the `members` collection keeps its length);
when `ib_status` is not approved the call fails with HTTP 400 and likewise
creates no member record; and the membership records that
`add_member_to_group` does create are created with status `active`, not
`pending`. -/
theorem C5_request_join_no_pending (db : MT5.DB) (t : Nat) (uid code : String)
    (g : MT5.GroupDoc) (u : MT5.UserDoc)
    (hgrp : db.groups.find? (MT5.matchesRef code) = some g)
    (huser : db.users.find? (fun x => x.uid == uid) = some u) :
    ((u.ib_status = "approved" →
      (MT5.joinGroupByReferral t uid code db).2 = MT5.Outcome.success ∧
      (MT5.joinGroupByReferral t uid code db).1.members.length = db.members.length ∧
      ((MT5.joinGroupByReferral t uid code db).1.users.find?
          (fun x => x.uid == uid)).map MT5.UserDoc.group_id = some (some g.gid)) ∧
    (u.ib_status ≠ "approved" →
      (MT5.joinGroupByReferral t uid code db).2
        = MT5.Outcome.httpError 400 "IB change must be approved before joining a group" ∧
      (MT5.joinGroupByReferral t uid code db).1.members.length = db.members.length)) ∧
    (∀ (t2 : Nat) (mid2 : String) (inp : MT5.NewMemberIn) (db2 db3 : MT5.DB),
      MT5.addMemberToGroup t2 mid2 inp db2 = (db3, true) →
      ∃ m : MT5.MemberDoc, db3.members = db2.members ++ [m] ∧ m.status = "active") :=
  ⟨MT5.joinReferral_behavior db t uid code g u hgrp huser,
   fun t2 mid2 inp db2 db3 h => MT5.addMember_creates_active t2 mid2 inp db2 db3 h⟩

/-- Witness for the amended C5 theorem at the concrete join of `dbC5`. -/
theorem C5_request_join_no_pending_witness :
    dbC5.groups.find? (MT5.matchesRef "REFB") = some gB ∧
    dbC5.users.find? (fun x => x.uid == "u") = some uC5 ∧
    (MT5.joinGroupByReferral 3 "u" "REFB" dbC5).2 = MT5.Outcome.success ∧
    (MT5.joinGroupByReferral 3 "u" "REFB" dbC5).1.members.length
      = dbC5.members.length :=
  ⟨by decide, by decide,
   (((C5_request_join_no_pending dbC5 3 "u" "REFB" gB uC5 (by decide)
      (by decide)).1.1) (by decide)).1,
   (((C5_request_join_no_pending dbC5 3 "u" "REFB" gB uC5 (by decide)
      (by decide)).1.1) (by decide)).2.1⟩

/-! Lemmas about the one-membership-per-pair invariant. -/

theorem countP_append_singleton_le (p q : α → Bool) (l : List α) (x : α)
    (himp : ∀ a, p a = true → q a = true)
    (hfind : l.find? q = none) :
    (l ++ [x]).countP p ≤ 1 := by
  rw [List.countP_append, countP_eq_zero_of_find?_eq_none p q himp l hfind]
  simp [List.countP_cons]
  by_cases hx : p x = true
  · simp [hx]
  · simp [Bool.eq_false_iff.mpr hx]

theorem countP_append_singleton_eq (p : α → Bool) (l : List α) (x : α)
    (hx : p x = false) : (l ++ [x]).countP p = l.countP p := by
  rw [List.countP_append]
  simp [List.countP_cons, hx]

theorem countP_singleton_le_one (p : α → Bool) (x : α) : ([x].countP p) ≤ 1 := by
  simp [List.countP_cons]
  by_cases hx : p x = true
  · simp [hx]
  · simp [Bool.eq_false_iff.mpr hx]

namespace MT5

theorem pairLiveCount_eq_of_members (db1 db2 : DB) (u g : String)
    (h : db1.members = db2.members) :
    pairLiveCount db1 u g = pairLiveCount db2 u g := by
  unfold pairLiveCount
  rw [h]

theorem pairLive_gracefulLeave_le (t : Nat) (uid pg : String) (db : DB)
    (u g : String) :
    pairLiveCount (gracefulLeave t uid pg db) u g ≤ pairLiveCount db u g := by
  unfold pairLiveCount gracefulLeave
  refine countP_map_le_of _ _ ?_ db.members
  intro m hm
  by_cases hgd : (m.user_id == uid && m.group_id == pg && m.status != "left") = true
  · simp only [if_pos hgd] at hm
    simp at hm
  · simp only [if_neg hgd] at hm
    exact hm

theorem joinReferral_members_shape (t : Nat) (uid code : String) (db : DB) :
    (joinGroupByReferral t uid code db).1.members = db.members ∨
    ∃ pg, (joinGroupByReferral t uid code db).1.members
      = (gracefulLeave t uid pg db).members := by
  cases hgrp : db.groups.find? (matchesRef code) with
  | none =>
    left
    unfold joinGroupByReferral
    rw [hgrp]
  | some g0 =>
    cases hprev : db.users.find? (fun x => x.uid == uid && x.group_id.isSome) with
    | none =>
      cases hu : db.users.find? (fun x => x.uid == uid) with
      | none =>
        left
        unfold joinGroupByReferral
        rw [hgrp]
        simp only [hprev, hu]
      | some w =>
        cases hib : w.ib_status == "approved" with
        | true =>
          left
          unfold joinGroupByReferral
          rw [hgrp]
          simp only [hprev, hu, hib, if_true]
          rfl
        | false =>
          left
          unfold joinGroupByReferral
          rw [hgrp]
          simp only [hprev, hu, hib, Bool.false_eq_true, if_false]
    | some prev =>
      cases hpg : prev.group_id with
      | none =>
        cases hu : db.users.find? (fun x => x.uid == uid) with
        | none =>
          left
          unfold joinGroupByReferral
          rw [hgrp]
          simp only [hprev, hpg, hu]
        | some w =>
          cases hib : w.ib_status == "approved" with
          | true =>
            left
            unfold joinGroupByReferral
            rw [hgrp]
            simp only [hprev, hpg, hu, hib, if_true]
            rfl
          | false =>
            left
            unfold joinGroupByReferral
            rw [hgrp]
            simp only [hprev, hpg, hu, hib, Bool.false_eq_true, if_false]
      | some pg =>
        cases hu : (gracefulLeave t uid pg db).users.find?
            (fun x => x.uid == uid) with
        | none =>
          refine Or.inr ⟨pg, ?_⟩
          unfold joinGroupByReferral
          rw [hgrp]
          simp only [hprev, hpg, hu]
        | some w =>
          cases hib : w.ib_status == "approved" with
          | true =>
            refine Or.inr ⟨pg, ?_⟩
            unfold joinGroupByReferral
            rw [hgrp]
            simp only [hprev, hpg, hu, hib, if_true]
            rfl
          | false =>
            refine Or.inr ⟨pg, ?_⟩
            unfold joinGroupByReferral
            rw [hgrp]
            simp only [hprev, hpg, hu, hib, Bool.false_eq_true, if_false]

theorem joinApiKey_members_shape (t : Nat) (uid key : String) (db : DB) :
    (joinGroupByApiKey t uid key db).1.members = db.members ∨
    ∃ pg, (joinGroupByApiKey t uid key db).1.members
      = (gracefulLeave t uid pg db).members := by
  cases hgrp : db.groups.find? (fun g => g.api_key == key) with
  | none =>
    left
    unfold joinGroupByApiKey
    rw [hgrp]
  | some g0 =>
    cases hprev : db.users.find? (fun x => x.uid == uid && x.group_id.isSome) with
    | none =>
      cases hu : db.users.find? (fun x => x.uid == uid) with
      | none =>
        left
        unfold joinGroupByApiKey
        rw [hgrp]
        simp only [hprev, hu]
      | some w =>
        cases hib : w.ib_status == "approved" with
        | true =>
          left
          unfold joinGroupByApiKey
          rw [hgrp]
          simp only [hprev, hu, hib, if_true]
          rfl
        | false =>
          left
          unfold joinGroupByApiKey
          rw [hgrp]
          simp only [hprev, hu, hib, Bool.false_eq_true, if_false]
    | some prev =>
      cases hpg : prev.group_id with
      | none =>
        cases hu : db.users.find? (fun x => x.uid == uid) with
        | none =>
          left
          unfold joinGroupByApiKey
          rw [hgrp]
          simp only [hprev, hpg, hu]
        | some w =>
          cases hib : w.ib_status == "approved" with
          | true =>
            left
            unfold joinGroupByApiKey
            rw [hgrp]
            simp only [hprev, hpg, hu, hib, if_true]
            rfl
          | false =>
            left
            unfold joinGroupByApiKey
            rw [hgrp]
            simp only [hprev, hpg, hu, hib, Bool.false_eq_true, if_false]
      | some pg =>
        cases hu : (gracefulLeave t uid pg db).users.find?
            (fun x => x.uid == uid) with
        | none =>
          refine Or.inr ⟨pg, ?_⟩
          unfold joinGroupByApiKey
          rw [hgrp]
          simp only [hprev, hpg, hu]
        | some w =>
          cases hib : w.ib_status == "approved" with
          | true =>
            refine Or.inr ⟨pg, ?_⟩
            unfold joinGroupByApiKey
            rw [hgrp]
            simp only [hprev, hpg, hu, hib, if_true]
            rfl
          | false =>
            refine Or.inr ⟨pg, ?_⟩
            unfold joinGroupByApiKey
            rw [hgrp]
            simp only [hprev, hpg, hu, hib, Bool.false_eq_true, if_false]

theorem joinDirect_members_shape (t : Nat) (uid gid aid mid : String)
    (opening : ℚ) (db : DB) :
    (joinGroupDirect t uid gid aid mid opening db).1.members = db.members ∨
    (db.members.find? (fun m => m.user_id == uid && m.group_id == gid) = none ∧
     (joinGroupDirect t uid gid aid mid opening db).1.members
       = db.members ++ [directMemberDoc t uid gid aid mid opening]) := by
  cases hg : db.groups.find? (fun x => x.gid == gid) with
  | none =>
    left
    unfold joinGroupDirect
    rw [hg]
  | some g0 =>
    cases hm : db.members.find? (fun m => m.user_id == uid && m.group_id == gid) with
    | some v =>
      left
      unfold joinGroupDirect
      rw [hg, hm]
      exact rfl
    | none =>
      refine Or.inr ⟨rfl, ?_⟩
      unfold joinGroupDirect
      rw [hg, hm]
      exact rfl

theorem addMember_members_shape (t : Nat) (newMid : String) (inp : NewMemberIn)
    (db : DB) :
    (addMemberToGroup t newMid inp db).1.members = db.members ∨
    (db.members.find? (fun m => m.user_id == inp.user_id
        && m.group_id == inp.group_id && m.status != "deleted") = none ∧
     (addMemberToGroup t newMid inp db).1.members
       = db.members ++ [serviceMemberDoc t newMid inp]) := by
  cases h1 : db.users.find? (fun u => u.uid == inp.user_id) with
  | none =>
    left
    unfold addMemberToGroup
    rw [h1]
  | some u2 =>
    cases h2 : db.groups.find? (fun g => g.gid == inp.group_id) with
    | none =>
      left
      unfold addMemberToGroup
      rw [h1, h2]
    | some g2 =>
      cases h3 : db.members.find? (fun m => m.user_id == inp.user_id
          && m.group_id == inp.group_id && m.status != "deleted") with
      | some v =>
        left
        unfold addMemberToGroup
        rw [h1, h2, h3]
        exact rfl
      | none =>
        cases h4 : validAccount inp with
        | false =>
          left
          unfold addMemberToGroup
          rw [h1, h2, h3, h4]
          exact rfl
        | true =>
          refine Or.inr ⟨rfl, ?_⟩
          unfold addMemberToGroup
          rw [h1, h2, h3, h4]
          rfl

end MT5

/-- C2 counterexample: the claim requires every sequence of join operations
to keep the number of non-`left`/non-`rejected` memberships of a user at
most 1.  Starting from `dbC2`, where `u` already holds a pending membership
in group `A`, the admin direct join endpoint happily creates a second
pending membership for `u` in group `B` — its duplicate check looks only at
the target group — leaving `u` with two live memberships. -/
theorem C2_counterexample :
    (MT5.activeMembershipCount dbC2 "u" = 1) ∧
    ((MT5.joinGroupDirect 1 "u" "B" "a2" "m2" 0 dbC2).2 = MT5.Outcome.success) ∧
    (MT5.activeMembershipCount (MT5.joinGroupDirect 1 "u" "B" "a2" "m2" 0 dbC2).1 "u"
      = 2) := by
  refine ⟨by decide, by decide, by decide⟩

/-- C2 (amended): what the join operations do preserve is the per-pair
bound: for every `(user, group)` pair, at most one membership whose status
is none of `left`/`rejected`/`deleted` — the referral and API-key joins only
flip statuses to `left` and insert nothing, and the direct join and
`add_member_to_group` insert only after their per-pair duplicate checks.
The system-wide one-group-per-user bound of the claim is not enforced (see
the counterexample: a direct join to a second group violates it). -/
theorem C2_one_live_membership_per_pair (db : MT5.DB)
    (hinv : ∀ u g, MT5.pairLiveCount db u g ≤ 1) :
    (∀ t uid code u g,
      MT5.pairLiveCount (MT5.joinGroupByReferral t uid code db).1 u g ≤ 1) ∧
    (∀ t uid key u g,
      MT5.pairLiveCount (MT5.joinGroupByApiKey t uid key db).1 u g ≤ 1) ∧
    (∀ t uid gid aid mid opening u g,
      MT5.pairLiveCount (MT5.joinGroupDirect t uid gid aid mid opening db).1 u g ≤ 1) ∧
    (∀ t newMid inp u g,
      MT5.pairLiveCount (MT5.addMemberToGroup t newMid inp db).1 u g ≤ 1) := by
  refine ⟨?_, ?_, ?_, ?_⟩
  · intro t uid code u g
    rcases MT5.joinReferral_members_shape t uid code db with h | ⟨pg, h⟩
    · rw [MT5.pairLiveCount_eq_of_members _ db u g h]
      exact hinv u g
    · calc MT5.pairLiveCount (MT5.joinGroupByReferral t uid code db).1 u g
          = MT5.pairLiveCount (MT5.gracefulLeave t uid pg db) u g :=
            MT5.pairLiveCount_eq_of_members _ _ u g h
      _ ≤ MT5.pairLiveCount db u g := MT5.pairLive_gracefulLeave_le t uid pg db u g
      _ ≤ 1 := hinv u g
  · intro t uid key u g
    rcases MT5.joinApiKey_members_shape t uid key db with h | ⟨pg, h⟩
    · rw [MT5.pairLiveCount_eq_of_members _ db u g h]
      exact hinv u g
    · calc MT5.pairLiveCount (MT5.joinGroupByApiKey t uid key db).1 u g
          = MT5.pairLiveCount (MT5.gracefulLeave t uid pg db) u g :=
            MT5.pairLiveCount_eq_of_members _ _ u g h
      _ ≤ MT5.pairLiveCount db u g := MT5.pairLive_gracefulLeave_le t uid pg db u g
      _ ≤ 1 := hinv u g
  · intro t uid gid aid mid opening u g
    rcases MT5.joinDirect_members_shape t uid gid aid mid opening db with h | ⟨hfind, h⟩
    · rw [MT5.pairLiveCount_eq_of_members _ db u g h]
      exact hinv u g
    · unfold MT5.pairLiveCount
      rw [h]
      by_cases hu : u = uid
      · by_cases hgg : g = gid
        · refine countP_append_singleton_le _
            (fun m => m.user_id == uid && m.group_id == gid) db.members _ ?_ hfind
          intro a ha
          simp only [Bool.and_eq_true] at ha ⊢
          exact ⟨hu ▸ ha.1.1.1.1, hgg ▸ ha.1.1.1.2⟩
        · have hx : ((MT5.directMemberDoc t uid gid aid mid opening).user_id == u
              && (MT5.directMemberDoc t uid gid aid mid opening).group_id == g
              && (MT5.directMemberDoc t uid gid aid mid opening).status != "left"
              && (MT5.directMemberDoc t uid gid aid mid opening).status != "rejected"
              && (MT5.directMemberDoc t uid gid aid mid opening).status != "deleted")
              = false := by
            simp [MT5.directMemberDoc, Ne.symm hgg]
          rw [countP_append_singleton_eq
            (fun m : MT5.MemberDoc => m.user_id == u && m.group_id == g
              && m.status != "left" && m.status != "rejected"
              && m.status != "deleted")
            db.members (MT5.directMemberDoc t uid gid aid mid opening) hx]
          exact hinv u g
      · have hx : ((MT5.directMemberDoc t uid gid aid mid opening).user_id == u
            && (MT5.directMemberDoc t uid gid aid mid opening).group_id == g
            && (MT5.directMemberDoc t uid gid aid mid opening).status != "left"
            && (MT5.directMemberDoc t uid gid aid mid opening).status != "rejected"
            && (MT5.directMemberDoc t uid gid aid mid opening).status != "deleted")
            = false := by
          simp [MT5.directMemberDoc, Ne.symm hu]
        rw [countP_append_singleton_eq
          (fun m : MT5.MemberDoc => m.user_id == u && m.group_id == g
            && m.status != "left" && m.status != "rejected"
            && m.status != "deleted")
          db.members (MT5.directMemberDoc t uid gid aid mid opening) hx]
        exact hinv u g
  · intro t newMid inp u g
    rcases MT5.addMember_members_shape t newMid inp db with h | ⟨hfind, h⟩
    · rw [MT5.pairLiveCount_eq_of_members _ db u g h]
      exact hinv u g
    · unfold MT5.pairLiveCount
      rw [h]
      by_cases hu : u = inp.user_id
      · by_cases hgg : g = inp.group_id
        · refine countP_append_singleton_le _
            (fun m => m.user_id == inp.user_id && m.group_id == inp.group_id
              && m.status != "deleted") db.members _ ?_ hfind
          intro a ha
          simp only [Bool.and_eq_true] at ha ⊢
          exact ⟨⟨hu ▸ ha.1.1.1.1, hgg ▸ ha.1.1.1.2⟩, ha.2⟩
        · have hx : ((MT5.serviceMemberDoc t newMid inp).user_id == u
              && (MT5.serviceMemberDoc t newMid inp).group_id == g
              && (MT5.serviceMemberDoc t newMid inp).status != "left"
              && (MT5.serviceMemberDoc t newMid inp).status != "rejected"
              && (MT5.serviceMemberDoc t newMid inp).status != "deleted")
              = false := by
            simp [MT5.serviceMemberDoc, Ne.symm hgg]
          rw [countP_append_singleton_eq
            (fun m : MT5.MemberDoc => m.user_id == u && m.group_id == g
              && m.status != "left" && m.status != "rejected"
              && m.status != "deleted")
            db.members (MT5.serviceMemberDoc t newMid inp) hx]
          exact hinv u g
      · have hx : ((MT5.serviceMemberDoc t newMid inp).user_id == u
            && (MT5.serviceMemberDoc t newMid inp).group_id == g
            && (MT5.serviceMemberDoc t newMid inp).status != "left"
            && (MT5.serviceMemberDoc t newMid inp).status != "rejected"
            && (MT5.serviceMemberDoc t newMid inp).status != "deleted")
            = false := by
          simp [MT5.serviceMemberDoc, Ne.symm hu]
        rw [countP_append_singleton_eq
          (fun m : MT5.MemberDoc => m.user_id == u && m.group_id == g
            && m.status != "left" && m.status != "rejected"
            && m.status != "deleted")
          db.members (MT5.serviceMemberDoc t newMid inp) hx]
        exact hinv u g

/-- Witness for the amended C2 theorem at the concrete direct join of
`dbC2`. -/
theorem C2_one_live_membership_per_pair_witness :
    MT5.pairLiveCount (MT5.joinGroupDirect 1 "u" "B" "a2" "m2" 0 dbC2).1 "u" "B" ≤ 1 :=
  (C2_one_live_membership_per_pair dbC2
    (fun _ _ => countP_singleton_le_one _ _)).2.2.1 1 "u" "B" "a2" "m2" 0 "u" "B"
